import Mathlib

/-!
Formal model of the TA-Nexus-OS core (shallow embedding).

Conventions of the embedding:
* Python `float` values are modelled as exact rationals (`ℚ`); Python `int`
  as `ℤ`/`ℕ`.  `round(x, k)` is modelled as round-half-to-even at `k`
  decimals, `int(x)` as truncation toward zero.
* Python dict lookups `d.get(key, default)` are modelled as `Option`
  fields read with `Option.getD`.
* External calls (the generation oracle, market data) are modelled by
  passing their outcome in as an argument; an outcome of `Except.error ()`
  stands for the call raising an exception.
-/

/-- Python `round` to the nearest integer, ties to even (banker's rounding). -/
def roundHalfEven (q : ℚ) : ℤ :=
  if q - ⌊q⌋ < 1 / 2 then ⌊q⌋
  else if 1 / 2 < q - ⌊q⌋ then ⌊q⌋ + 1
  else if ⌊q⌋ % 2 = 0 then ⌊q⌋ else ⌊q⌋ + 1

/-- Python `round(x, 1)` in the rational model. -/
def round1 (q : ℚ) : ℚ := (roundHalfEven (q * 10) : ℚ) / 10

/-- Python `round(x, 2)` in the rational model. -/
def round2 (q : ℚ) : ℚ := (roundHalfEven (q * 100) : ℚ) / 100

/-- Python `int(x)`: truncation toward zero. -/
def pyInt (q : ℚ) : ℤ := if 0 ≤ q then ⌊q⌋ else ⌈q⌉

/-!  ### src/services/market_service.py — data model used by the orchestrator -/

/-- `SalaryBenchmark` from src/services/market_service.py. -/
structure SalaryBenchmark where
  job_title : String
  location : String
  average_salary : ℚ
  min_salary : ℚ
  max_salary : ℚ
  job_count : ℤ
  currency : String
  salary_risk_threshold : ℚ
deriving DecidableEq

/-- `CompanyHealth` from src/services/market_service.py. -/
structure CompanyHealth where
  symbol : String
  company_name : String
  last_price : ℚ
  price_change_pct : ℚ
  volume : ℤ
  trend : String
  retention_risk : String
  data_available : Bool
deriving DecidableEq

/-- `MarketIntelligence` from src/services/market_service.py. -/
structure MarketIntelligence where
  salary : Option SalaryBenchmark
  company : Option CompanyHealth
  salary_risk : String
  salary_risk_pct : ℚ
  market_summary : String
deriving DecidableEq

/-!  ### src/core/orchestrator.py -/

/-- `WorkerAReport` from src/core/orchestrator.py. -/
structure WorkerAReport where
  vision_2030_alignment : String
  strategic_notes : String
  domain_color : String
  domain_alert : Bool
deriving DecidableEq

/-- `WorkerBReport` from src/core/orchestrator.py. -/
structure WorkerBReport where
  linkedin_sniper_url : String
  email_found : Option String
  email_verified : Bool
  outreach_method : String
  outreach_status : String
deriving DecidableEq

/-- `WorkerCReport` from src/core/orchestrator.py. -/
structure WorkerCReport where
  overall_score : ℤ
  skill_match_pct : ℚ
  skill_gaps : List String
  strengths : List String
  recommendation : String
  risk_level : String
deriving DecidableEq

/-- `WorkerDReport` from src/core/orchestrator.py. -/
structure WorkerDReport where
  market : MarketIntelligence
  salary_risk : String
  company_trend : String
  financial_alert : Bool
deriving DecidableEq

/-- `FullIntelligenceReport` from src/core/orchestrator.py. -/
structure FullIntelligenceReport where
  candidate_name : String
  job_title : String
  worker_a : WorkerAReport
  worker_b : WorkerBReport
  worker_c : WorkerCReport
  worker_d : WorkerDReport
  final_decision : String
  red_flash : Bool
  executive_summary : String
deriving DecidableEq

/-- The fields of the `candidate_data` dict read by `Orchestrator.run_analysis`
(`.get` with defaults). -/
structure CandidateData where
  name : Option String
  current_title : Option String
  company_stock_symbol : Option String
deriving DecidableEq

/-- `Orchestrator.run_analysis` from src/core/orchestrator.py (lines 228-313).
The three worker sub-calls and the executive-summary oracle call are external;
their joined outcomes are passed in as arguments (`worker_a`, `worker_c`,
`market_intel`, `executive_summary`).  The body merges them exactly as the
source does: it assembles `worker_d` from the market intelligence, accumulates
the composite risk score, derives `red_flash` and `final_decision`, and builds
the full report (with the dummy `worker_b`). -/
def Orchestrator.run_analysis (candidate_data : CandidateData)
    (worker_a : WorkerAReport) (worker_c : WorkerCReport)
    (market_intel : MarketIntelligence) (executive_summary : String) :
    FullIntelligenceReport :=
  let job_title := candidate_data.current_title.getD "Unknown Role"
  let worker_d : WorkerDReport :=
    { market := market_intel
      salary_risk := market_intel.salary_risk
      company_trend :=
        match market_intel.company with
        | some c => c.trend
        | none => "unknown"
      financial_alert := decide (market_intel.salary_risk = "high") }
  let risk_score : ℕ :=
    (if worker_c.risk_level = "high" then 40 else 0) +
    (if worker_d.salary_risk = "high" then 35 else 0) +
    (if worker_a.domain_alert then 25 else 0)
  let red_flash : Bool := decide (70 ≤ risk_score)
  let final_decision : String :=
    if 85 ≤ worker_c.overall_score ∧ red_flash = false then "advance"
    else if 60 ≤ worker_c.overall_score then "screen"
    else "reject"
  let worker_b : WorkerBReport :=
    { linkedin_sniper_url := ""
      email_found := none
      email_verified := false
      outreach_method := "linkedin_sniper"
      outreach_status := "not_run" }
  { candidate_name := candidate_data.name.getD "Unknown"
    job_title := job_title
    worker_a := worker_a
    worker_b := worker_b
    worker_c := worker_c
    worker_d := worker_d
    final_decision := final_decision
    red_flash := red_flash
    executive_summary := executive_summary }

/-!  ### src/core/risk_sentinel.py -/

/-- `SkillGapResult` from src/core/risk_sentinel.py. -/
structure SkillGapResult where
  required_skills : List String
  candidate_skills : List String
  matched_skills : List String
  missing_skills : List String
  match_percentage : ℚ
  gap_severity : String
deriving DecidableEq

/-- `RetentionRisk` from src/core/risk_sentinel.py. -/
structure RetentionRisk where
  avg_tenure_months : ℚ
  job_count : ℕ
  is_job_hopper : Bool
  risk_level : String
  risk_score : ℚ
  explanation : String
deriving DecidableEq

/-- `SalaryRisk` from src/core/risk_sentinel.py. -/
structure SalaryRisk where
  candidate_ask : ℚ
  market_average : ℚ
  overage_pct : ℚ
  risk_level : String
  alert : Bool
  recommendation : String
deriving DecidableEq

/-- `CulturalRisk` from src/core/risk_sentinel.py. -/
structure CulturalRisk where
  tone_score : ℚ
  risk_level : String
  red_flags : List String
  positive_signals : List String
deriving DecidableEq

/-- `RiskMatrix` from src/core/risk_sentinel.py. -/
structure RiskMatrix where
  skill_gap : SkillGapResult
  retention : RetentionRisk
  salary : SalaryRisk
  cultural : CulturalRisk
  aggregate_risk_score : ℚ
  risk_color : String
  red_flash_required : Bool
deriving DecidableEq

/-- Python `str.lower()`, modelled character-wise (ASCII case folding). -/
def pyLower (s : String) : String := ⟨s.data.map Char.toLower⟩

/-- Python `str.strip()`: drop whitespace at both ends. -/
def pyStrip (s : String) : String :=
  ⟨((s.data.dropWhile Char.isWhitespace).reverse.dropWhile Char.isWhitespace).reverse⟩

/-- The skill normalization `s.lower().strip()` applied inside
`calculate_skill_gap`. -/
def normalizeSkill (s : String) : String := pyStrip (pyLower s)

/-- `calculate_skill_gap` from src/core/risk_sentinel.py (lines 62-94).
Python sets are modelled as deduplicated lists: `req_normalized` and
`cand_normalized` are the deduplicated normalized lists, intersection and
difference are membership filters. -/
def calculate_skill_gap (required_skills candidate_skills : List String) :
    SkillGapResult :=
  let req_normalized := (required_skills.map normalizeSkill).dedup
  let cand_normalized := (candidate_skills.map normalizeSkill).dedup
  let matched := req_normalized.filter (fun s => decide (s ∈ cand_normalized))
  let missing := req_normalized.filter (fun s => decide (s ∉ cand_normalized))
  let match_pct : ℚ :=
    if req_normalized = [] then 100
    else (matched.length : ℚ) / (req_normalized.length : ℚ) * 100
  let severity :=
    if 85 ≤ match_pct then "low"
    else if 65 ≤ match_pct then "medium"
    else if 45 ≤ match_pct then "high"
    else "critical"
  { required_skills := required_skills
    candidate_skills := candidate_skills
    matched_skills := matched
    missing_skills := missing
    match_percentage := round1 match_pct
    gap_severity := severity }

/-- One entry of the `job_history` list of dicts; `assess_retention_risk`
reads only `j.get("duration_months", 0)`. -/
structure JobHistoryEntry where
  duration_months : Option ℚ
deriving DecidableEq

/-- `assess_retention_risk` from src/core/risk_sentinel.py (lines 100-147).
The f-string format `{avg:.0f}` is modelled as round-half-even to an
integer. -/
def assess_retention_risk (job_history : List JobHistoryEntry) : RetentionRisk :=
  if job_history = [] then
    { avg_tenure_months := 0
      job_count := 0
      is_job_hopper := false
      risk_level := "unknown"
      risk_score := 50
      explanation := "No job history provided" }
  else
    let tenures := job_history.map (fun j => j.duration_months.getD 0)
    let avg_tenure : ℚ := if tenures = [] then 0 else tenures.sum / (tenures.length : ℚ)
    let job_count := job_history.length
    let is_hopper : Bool := decide (avg_tenure < 18)
    let band : String × ℚ :=
      if 36 ≤ avg_tenure then ("low", 15)
      else if 24 ≤ avg_tenure then ("medium", 40)
      else if 12 ≤ avg_tenure then ("medium", 60)
      else ("high", 85)
    let explanation :=
      "Avg tenure: " ++ toString (roundHalfEven avg_tenure) ++ " months across " ++
        toString job_count ++ " positions. " ++
        (if is_hopper then "⚠️ Job hopper detected — high flight risk."
         else "Stable career trajectory.")
    { avg_tenure_months := round1 avg_tenure
      job_count := job_count
      is_job_hopper := is_hopper
      risk_level := band.1
      risk_score := band.2
      explanation := explanation }

/-- `assess_salary_risk` from src/core/risk_sentinel.py (lines 153-197).
The f-string format `{overage_pct:.0f}` is modelled as round-half-even to
an integer. -/
def assess_salary_risk (candidate_ask market_average : ℚ) : SalaryRisk :=
  if market_average ≤ 0 then
    { candidate_ask := candidate_ask
      market_average := 0
      overage_pct := 0
      risk_level := "unknown"
      alert := false
      recommendation := "No market data available to assess salary risk" }
  else
    let overage_pct := (candidate_ask - market_average) / market_average * 100
    let fmt := toString (roundHalfEven overage_pct)
    let band : String × Bool × String :=
      if 30 ≤ overage_pct then
        ("high", true,
          "⚠️ Candidate asks " ++ fmt ++
            "% above market. Negotiate down or reject based on budget.")
      else if 15 ≤ overage_pct then
        ("medium", false,
          "Candidate asks " ++ fmt ++ "% above market. Some negotiation expected.")
      else if -10 ≤ overage_pct then
        ("low", false,
          "Salary expectation aligns well with market. Competitive offer likely to succeed.")
      else
        ("low", false,
          "Candidate asks below market. Strong value proposition — move quickly.")
    { candidate_ask := candidate_ask
      market_average := market_average
      overage_pct := round1 overage_pct
      risk_level := band.1
      alert := band.2.1
      recommendation := band.2.2 }

/-- The fixed `red_flag_words` keyword list from `assess_cultural_risk`. -/
def red_flag_words : List String :=
  ["i don\x27t", "i won\x27t", "impossible", "blame", "they failed",
   "management is bad", "not my job", "i quit", "just a job"]

/-- The fixed `positive_words` keyword list from `assess_cultural_risk`. -/
def positive_words : List String :=
  ["team", "collaborate", "learn", "grow", "ownership", "initiative",
   "achieve", "improve", "impact", "contribute", "passionate"]

/-- Python substring containment `w in hay`. -/
def containsSub (hay w : String) : Bool := decide (w.toList <:+: hay.toList)

/-- `assess_cultural_risk` from src/core/risk_sentinel.py (lines 203-254). -/
def assess_cultural_risk (answers : List String) : CulturalRisk :=
  if answers = [] then
    { tone_score := 50
      risk_level := "unknown"
      red_flags := []
      positive_signals := [] }
  else
    let all_text := pyLower (String.intercalate " " answers)
    let red_flags := red_flag_words.filter (fun w => containsSub all_text w)
    let positive_signals := positive_words.filter (fun w => containsSub all_text w)
    let base_score : ℚ :=
      50 + ((min (positive_signals.length * 5) 40 : ℕ) : ℚ)
        - ((min (red_flags.length * 10) 40 : ℕ) : ℚ)
    let tone_score := max 0 (min 100 base_score)
    let risk_level :=
      if 75 ≤ tone_score then "low"
      else if 50 ≤ tone_score then "medium"
      else "high"
    { tone_score := round1 tone_score
      risk_level := risk_level
      red_flags := red_flags
      positive_signals := positive_signals }

/-- The positive keyword hits found in the concatenated answer text
(the `positive_signals` filter of `assess_cultural_risk`). -/
def positiveHits (answers : List String) : List String :=
  positive_words.filter (fun w =>
    containsSub (pyLower (String.intercalate " " answers)) w)

/-- The risk keyword hits found in the concatenated answer text
(the `red_flags` filter of `assess_cultural_risk`). -/
def riskHits (answers : List String) : List String :=
  red_flag_words.filter (fun w =>
    containsSub (pyLower (String.intercalate " " answers)) w)

/-- The `risk_weights` dict from `build_risk_matrix`. -/
structure RiskWeights where
  skill : ℕ
  retention : ℕ
  salary : ℕ
  cultural : ℕ
deriving DecidableEq

/-- The weights used by `build_risk_matrix` (lines 278-283). -/
def risk_weights : RiskWeights :=
  { skill := 35, retention := 25, salary := 25, cultural := 15 }

/-- `skill_risk_score` local of `build_risk_matrix` (line 285). -/
def skill_risk_score (skill_gap : SkillGapResult) : ℚ :=
  100 - skill_gap.match_percentage

/-- `salary_risk_score` local of `build_risk_matrix` (line 287). -/
def salary_risk_score (salary : SalaryRisk) : ℚ :=
  if salary.risk_level = "high" then 80
  else if salary.risk_level = "medium" then 40
  else 10

/-- `cultural_risk_score` local of `build_risk_matrix` (line 288). -/
def cultural_risk_score (cultural : CulturalRisk) : ℚ :=
  100 - cultural.tone_score

/-- `build_risk_matrix` from src/core/risk_sentinel.py (lines 260-317).
The Python default `answers=None` and the expression `answers or []` are
modelled by an `Option` argument read with `getD []`. -/
def build_risk_matrix (required_skills candidate_skills : List String)
    (job_history : List JobHistoryEntry) (candidate_ask market_average : ℚ)
    (answers : Option (List String)) : RiskMatrix :=
  let skill_gap := calculate_skill_gap required_skills candidate_skills
  let retention := assess_retention_risk job_history
  let salary := assess_salary_risk candidate_ask market_average
  let cultural := assess_cultural_risk (answers.getD [])
  let aggregate : ℚ :=
    skill_risk_score skill_gap * (risk_weights.skill : ℚ) / 100 +
    retention.risk_score * (risk_weights.retention : ℚ) / 100 +
    salary_risk_score salary * (risk_weights.salary : ℚ) / 100 +
    cultural_risk_score cultural * (risk_weights.cultural : ℚ) / 100
  let color :=
    if aggregate < 25 then "green"
    else if aggregate < 50 then "yellow"
    else if aggregate < 70 then "orange"
    else "red"
  let red_flash := decide (70 ≤ aggregate)
  { skill_gap := skill_gap
    retention := retention
    salary := salary
    cultural := cultural
    aggregate_risk_score := round1 aggregate
    risk_color := color
    red_flash_required := red_flash }

/-- The match percentage as the spec describes it: normalize both lists,
take the set intersection, and divide by the size of the normalized
required set (100 when it is empty).  Stated over `Finset`s, to be compared
with the list implementation in `calculate_skill_gap`. -/
def specMatchPct (required_skills candidate_skills : List String) : ℚ :=
  let r := (required_skills.map normalizeSkill).toFinset
  let c := (candidate_skills.map normalizeSkill).toFinset
  if r = ∅ then 100 else ((r ∩ c).card : ℚ) / (r.card : ℚ) * 100

/-!  ### src/core/evaluator.py -/

/-- One entry of the parsed pass-1 `scores` array; evaluator reads every
field with `s.get(key, default)`, modelled as `Option` fields. -/
structure ScoreEntry where
  question : Option String
  candidate_answer : Option String
  ideal_answer : Option String
  score : Option ℤ
  feedback : Option String
  weakness_detected : Option Bool
deriving DecidableEq

/-- The parsed pass-1 JSON (`eval_data`), each key read with
`eval_data.get(key, default)`. -/
structure EvalData where
  scores : Option (List ScoreEntry)
  strengths : Option (List String)
  weaknesses : Option (List String)
  cultural_fit_score : Option ℤ
  technical_score : Option ℤ
  behavioral_score : Option ℤ
  interview_traps : Option (List String)
deriving DecidableEq

/-- The parsed pass-2 JSON (`_validate_score`), read with
`data.get("validated_score", total_score)`. -/
structure ValData where
  validated_score : Option ℤ
deriving DecidableEq

/-- `QuestionScore` from src/core/evaluator.py. -/
structure QuestionScore where
  question : String
  candidate_answer : String
  ideal_answer : String
  score : ℤ
  feedback : String
  weakness_detected : Bool
deriving DecidableEq

/-- `EvaluationResult` from src/core/evaluator.py. -/
structure EvaluationResult where
  session_id : String
  total_score : ℤ
  score_breakdown : List QuestionScore
  strengths : List String
  weaknesses : List String
  cultural_fit_score : ℤ
  technical_score : ℤ
  behavioral_score : ℤ
  interview_traps : List String
  recommendation : String
  validated : Bool
deriving DecidableEq

/-- The fixed degraded result built by the `except` branch of
`evaluate_answers` (lines 193-206). -/
def degraded_result (session_id : String) : EvaluationResult :=
  { session_id := session_id
    total_score := 50
    score_breakdown := []
    strengths := []
    weaknesses := ["Evaluation error — manual review required"]
    cultural_fit_score := 50
    technical_score := 50
    behavioral_score := 50
    interview_traps := []
    recommendation := "screen"
    validated := false }

/-- The `raw_total` local of `evaluate_answers` (line 151). -/
def raw_total (scores_data : List ScoreEntry) : ℤ :=
  (scores_data.map (fun s => s.score.getD 0)).sum

/-- The `max_possible` local of `evaluate_answers` (line 153). -/
def max_possible (scores_data : List ScoreEntry) : ℕ :=
  scores_data.length * 20

/-- The `normalized_score` local of `evaluate_answers` (line 154):
`int((raw_total / max(max_possible, 1)) * 100)`. -/
def normalized_score (scores_data : List ScoreEntry) : ℤ :=
  pyInt ((raw_total scores_data : ℚ) / ((max (max_possible scores_data) 1 : ℕ) : ℚ) * 100)

/-- `evaluate_answers` from src/core/evaluator.py (lines 135-206).  The two
oracle calls (`_evaluate_answers` and `_validate_score`, which both generate
text and parse it as JSON inside the `try` block) are external; their
outcomes are passed in, `Except.error ()` standing for any exception raised
inside the `try` block (generation failure or unparseable response). -/
def evaluate_answers (session_id : String)
    (pass1 : Except Unit EvalData) (pass2 : Except Unit ValData) :
    EvaluationResult :=
  match pass1 with
  | Except.error _ => degraded_result session_id
  | Except.ok eval_data =>
    let scores_data := eval_data.scores.getD []
    let ns := normalized_score scores_data
    match pass2 with
    | Except.error _ => degraded_result session_id
    | Except.ok val_data =>
      let validated_score := val_data.validated_score.getD ns
      let score_breakdown := scores_data.map (fun s =>
        { question := s.question.getD ""
          candidate_answer := s.candidate_answer.getD ""
          ideal_answer := s.ideal_answer.getD ""
          score := s.score.getD 0
          feedback := s.feedback.getD ""
          weakness_detected := s.weakness_detected.getD false : QuestionScore })
      let recommendation :=
        if 85 ≤ validated_score then "advance"
        else if 60 ≤ validated_score then "screen"
        else "reject"
      { session_id := session_id
        total_score := validated_score
        score_breakdown := score_breakdown
        strengths := eval_data.strengths.getD []
        weaknesses := eval_data.weaknesses.getD []
        cultural_fit_score := eval_data.cultural_fit_score.getD 50
        technical_score := eval_data.technical_score.getD 50
        behavioral_score := eval_data.behavioral_score.getD 50
        interview_traps := eval_data.interview_traps.getD []
        recommendation := recommendation
        validated := true }

/-- Three scored questions with scores 1, 0, 0 — a concrete pass-1 scores
array on which truncation and rounding of the normalized score differ. -/
def cexScores : List ScoreEntry :=
  [⟨none, none, none, some 1, none, none⟩,
   ⟨none, none, none, some 0, none, none⟩,
   ⟨none, none, none, some 0, none, none⟩]

/-!  ### src/core/memory_manager.py -/

/-- `MemorySnapshot` from src/core/memory_manager.py. -/
structure MemorySnapshot where
  session_id : String
  summary : String
  key_facts : List String
  token_count_before : ℕ
  token_count_after : ℕ
  compression_ratio : ℚ
deriving DecidableEq

/-- The parsed compaction JSON of `compact_session`, each key read with
`data.get(key, default)`. -/
structure ParsedCompaction where
  summary : Option String
  key_facts : Option (List String)
deriving DecidableEq

/-- Word counting helper: number of maximal non-whitespace runs. -/
def countWordsAux : List Char → Bool → ℕ
  | [], _ => 0
  | c :: cs, inWord =>
    if c.isWhitespace then countWordsAux cs false
    else (if inWord then 0 else 1) + countWordsAux cs true

/-- Python `len(text.split())`: the number of whitespace-separated words. -/
def wordCount (s : String) : ℕ := countWordsAux s.data false

/-- `compact_session` from src/core/memory_manager.py (lines 26-72).  The
oracle interaction is passed in as `oracle`: `Except.error ()` stands for
`model.generate_content` raising (line 51, outside the `try` block);
`Except.ok none` for a response whose text extraction or JSON parsing fails
inside the `try` block (lines 53-60); `Except.ok (some data)` for a parsed
response. -/
def compact_session (session_id : String) (conversation_text : String)
    (oracle : Except Unit (Option ParsedCompaction)) :
    Except Unit MemorySnapshot :=
  let token_estimate_before := wordCount conversation_text
  match oracle with
  | Except.error e => Except.error e
  | Except.ok parse_outcome =>
    let summary :=
      match parse_outcome with
      | some data => data.summary.getD "Session context preserved."
      | none =>
        if 500 < conversation_text.length then conversation_text.take 500 ++ "..."
        else conversation_text
    let key_facts :=
      match parse_outcome with
      | some data => data.key_facts.getD []
      | none => ([] : List String)
    let token_estimate_after := wordCount summary + (key_facts.map wordCount).sum
    let compression_ratio :=
      round2 ((token_estimate_before : ℚ) / ((max token_estimate_after 1 : ℕ) : ℚ))
    Except.ok
      { session_id := session_id
        summary := summary
        key_facts := key_facts
        token_count_before := token_estimate_before
        token_count_after := token_estimate_after
        compression_ratio := compression_ratio }

/-- `should_compact` from src/core/memory_manager.py (lines 86-89); the
float literal `1.3` is the exact rational 13/10 in this model. -/
def should_compact (conversation_text : String) (threshold_tokens : ℚ) : Bool :=
  decide (threshold_tokens ≤ (wordCount conversation_text : ℚ) * (13 / 10))

/-- A text of `n` words: `n` copies of " w". -/
def wText (n : ℕ) : String := ⟨(List.replicate n [' ', 'w']).flatten⟩

/-- Claim C1: `Orchestrator.run_analysis` computes the composite risk as
40·[intelligence riskLevel = "high"] + 35·[salaryRisk = "high"] +
25·[domainAlert], sets `red_flash` iff that composite is ≥ 70, decides
"advance" iff the intelligence score is ≥ 85 and `red_flash` is false,
otherwise "screen" iff the score is ≥ 60, otherwise "reject"; in particular
with intelligence score 90 and `red_flash` true the decision is "screen". -/
theorem run_analysis_composite_and_decision (cd : CandidateData)
    (wa : WorkerAReport) (wc : WorkerCReport) (mi : MarketIntelligence)
    (es : String) :
    (Orchestrator.run_analysis cd wa wc mi es).red_flash =
      decide (70 ≤ (if wc.risk_level = "high" then 40 else 0) +
        (if mi.salary_risk = "high" then 35 else 0) +
        (if wa.domain_alert then (25 : ℕ) else 0))
    ∧ ((Orchestrator.run_analysis cd wa wc mi es).final_decision = "advance" ↔
        85 ≤ wc.overall_score ∧
          (Orchestrator.run_analysis cd wa wc mi es).red_flash = false)
    ∧ ((Orchestrator.run_analysis cd wa wc mi es).final_decision = "screen" ↔
        ¬ (85 ≤ wc.overall_score ∧
            (Orchestrator.run_analysis cd wa wc mi es).red_flash = false) ∧
          60 ≤ wc.overall_score)
    ∧ ((Orchestrator.run_analysis cd wa wc mi es).final_decision = "reject" ↔
        ¬ (85 ≤ wc.overall_score ∧
            (Orchestrator.run_analysis cd wa wc mi es).red_flash = false) ∧
          ¬ 60 ≤ wc.overall_score)
    ∧ (wc.overall_score = 90 →
        (Orchestrator.run_analysis cd wa wc mi es).red_flash = true →
        (Orchestrator.run_analysis cd wa wc mi es).final_decision = "screen") := by
  simp only [Orchestrator.run_analysis]
  by_cases hc : wc.risk_level = "high" <;>
    by_cases hd : mi.salary_risk = "high" <;>
      by_cases ha : wa.domain_alert = true <;>
        by_cases h85 : 85 ≤ wc.overall_score <;>
          by_cases h60 : 60 ≤ wc.overall_score <;>
            simp_all <;> try omega
  all_goals (split_ifs <;> simp_all <;> omega)

/-- Claim C1 witness: with intelligence score 90, risk level "high" and
salary risk "high", the red flash fires and the decision is "screen". -/
theorem run_analysis_composite_and_decision_witness :
    ((90 : ℤ) = 90) ∧
      (Orchestrator.run_analysis ⟨none, none, none⟩
        ⟨"", "", "red", true⟩ ⟨90, 0, [], [], "advance", "high"⟩
        ⟨none, none, "high", 0, ""⟩ "").final_decision = "screen" :=
  ⟨rfl,
    (run_analysis_composite_and_decision ⟨none, none, none⟩
      ⟨"", "", "red", true⟩ ⟨90, 0, [], [], "advance", "high"⟩
      ⟨none, none, "high", 0, ""⟩ "").2.2.2.2 rfl (by decide)⟩

/-- Claim C10: `red_flash` is true iff the intelligence worker's risk level
and the market salary risk are both "high"; the strategic worker's
`domain_alert` never decides it, since 40+35 = 75 ≥ 70 while 40+25 = 65 and
35+25 = 60 fall short of the threshold. -/
theorem run_analysis_red_flash_iff_both_high (cd : CandidateData)
    (wa : WorkerAReport) (wc : WorkerCReport) (mi : MarketIntelligence)
    (es : String) :
    (Orchestrator.run_analysis cd wa wc mi es).red_flash =
      (decide (wc.risk_level = "high") && decide (mi.salary_risk = "high")) := by
  simp only [Orchestrator.run_analysis]
  by_cases hc : wc.risk_level = "high" <;>
    by_cases hd : mi.salary_risk = "high" <;>
      by_cases ha : wa.domain_alert = true <;>
        simp_all

/-! ### Arithmetic facts about the rounding helpers -/

theorem le_roundHalfEven (n : ℤ) (q : ℚ) (h : (n : ℚ) ≤ q) : n ≤ roundHalfEven q := by
  unfold roundHalfEven
  have hf : n ≤ ⌊q⌋ := Int.le_floor.mpr h
  split_ifs <;> omega

theorem roundHalfEven_le (q : ℚ) (n : ℤ) (h : q ≤ (n : ℚ)) : roundHalfEven q ≤ n := by
  unfold roundHalfEven
  have hf : ⌊q⌋ ≤ n := by
    have := Int.floor_le_floor h
    rwa [Int.floor_intCast] at this
  have hfq : (⌊q⌋ : ℚ) ≤ q := Int.floor_le q
  split_ifs with h1 h2 h3
  · exact hf
  · have hlt : (⌊q⌋ : ℚ) + 1 / 2 < (n : ℚ) := by linarith
    have : (⌊q⌋ : ℚ) < (n : ℚ) := by linarith
    have : ⌊q⌋ < n := by exact_mod_cast this
    omega
  · exact hf
  · have h1' : 1 / 2 ≤ q - (⌊q⌋ : ℚ) := le_of_not_lt h1
    have hlt : (⌊q⌋ : ℚ) + 1 / 2 ≤ (n : ℚ) := by linarith
    have : (⌊q⌋ : ℚ) < (n : ℚ) := by linarith
    have : ⌊q⌋ < n := by exact_mod_cast this
    omega

theorem round1_bounds (q : ℚ) (h0 : 0 ≤ q) (h1 : q ≤ 100) :
    0 ≤ round1 q ∧ round1 q ≤ 100 := by
  unfold round1
  constructor
  · have hl : (0 : ℤ) ≤ roundHalfEven (q * 10) :=
      le_roundHalfEven 0 _ (by push_cast; linarith)
    have : (0 : ℚ) ≤ (roundHalfEven (q * 10) : ℚ) := by exact_mod_cast hl
    linarith
  · have hu : roundHalfEven (q * 10) ≤ 1000 :=
      roundHalfEven_le _ 1000 (by push_cast; linarith)
    have : ((roundHalfEven (q * 10) : ℤ) : ℚ) ≤ 1000 := by exact_mod_cast hu
    linarith

theorem roundHalfEven_intCast (m : ℤ) : roundHalfEven (m : ℚ) = m := by
  unfold roundHalfEven
  rw [Int.floor_intCast]
  simp

theorem round1_intCast (m : ℤ) : round1 (m : ℚ) = m := by
  unfold round1
  have h : (m : ℚ) * 10 = ((m * 10 : ℤ) : ℚ) := by push_cast; ring
  rw [h, roundHalfEven_intCast]
  push_cast
  ring

/-! ### Bounds on the risk sub-scores -/

theorem match_percentage_bounds (required candidate : List String) :
    0 ≤ (calculate_skill_gap required candidate).match_percentage ∧
      (calculate_skill_gap required candidate).match_percentage ≤ 100 := by
  unfold calculate_skill_gap
  dsimp only
  refine round1_bounds _ ?_ ?_
  · split_ifs with h
    · norm_num
    · positivity
  · split_ifs with h
    · norm_num
    · set req := (required.map normalizeSkill).dedup with hreq
      have hlen : 0 < req.length := List.length_pos.mpr h
      have hle : (req.filter
          (fun s => decide (s ∈ (candidate.map normalizeSkill).dedup))).length ≤
            req.length := List.length_filter_le _ _
      have hq : ((req.filter
          (fun s => decide (s ∈ (candidate.map normalizeSkill).dedup))).length : ℚ) /
            (req.length : ℚ) ≤ 1 := by
        rw [div_le_one (by exact_mod_cast hlen)]
        exact_mod_cast hle
      linarith

theorem tone_score_bounds (answers : List String) :
    0 ≤ (assess_cultural_risk answers).tone_score ∧
      (assess_cultural_risk answers).tone_score ≤ 100 := by
  unfold assess_cultural_risk
  split_ifs with h
  · norm_num
  · dsimp only
    apply round1_bounds
    · exact le_max_left _ _
    · exact max_le (by norm_num) (min_le_left _ _)

theorem retention_risk_score_bounds (job_history : List JobHistoryEntry) :
    0 ≤ (assess_retention_risk job_history).risk_score ∧
      (assess_retention_risk job_history).risk_score ≤ 100 := by
  unfold assess_retention_risk
  by_cases h : job_history = []
  · simp only [if_pos h]
    norm_num
  · simp only [if_neg h]
    split_ifs <;> norm_num

theorem salary_risk_score_bounds (s : SalaryRisk) :
    0 ≤ salary_risk_score s ∧ salary_risk_score s ≤ 100 := by
  unfold salary_risk_score
  split_ifs <;> norm_num

/-- Claim C3: for every input to `build_risk_matrix`, the four weights
35/25/25/15 sum to 100, each of the four sub-risk scores lies in [0, 100],
the aggregate is the convex combination Σ subScore·weight/100 of the four
sub-risk scores (stored rounded to 1 decimal per the numeric contract), and
the stored `aggregate_risk_score` lies in [0, 100]. -/
theorem build_risk_matrix_weights_and_bounds
    (required_skills candidate_skills : List String)
    (job_history : List JobHistoryEntry) (candidate_ask market_average : ℚ)
    (answers : Option (List String)) :
    let m := build_risk_matrix required_skills candidate_skills job_history
      candidate_ask market_average answers
    risk_weights.skill + risk_weights.retention + risk_weights.salary +
        risk_weights.cultural = 100
    ∧ (0 ≤ skill_risk_score m.skill_gap ∧ skill_risk_score m.skill_gap ≤ 100)
    ∧ (0 ≤ m.retention.risk_score ∧ m.retention.risk_score ≤ 100)
    ∧ (0 ≤ salary_risk_score m.salary ∧ salary_risk_score m.salary ≤ 100)
    ∧ (0 ≤ cultural_risk_score m.cultural ∧ cultural_risk_score m.cultural ≤ 100)
    ∧ m.aggregate_risk_score =
        round1 (skill_risk_score m.skill_gap * (risk_weights.skill : ℚ) / 100 +
          m.retention.risk_score * (risk_weights.retention : ℚ) / 100 +
          salary_risk_score m.salary * (risk_weights.salary : ℚ) / 100 +
          cultural_risk_score m.cultural * (risk_weights.cultural : ℚ) / 100)
    ∧ 0 ≤ m.aggregate_risk_score ∧ m.aggregate_risk_score ≤ 100 := by
  dsimp only
  obtain ⟨hm0, hm1⟩ := match_percentage_bounds required_skills candidate_skills
  obtain ⟨hr0, hr1⟩ := retention_risk_score_bounds job_history
  obtain ⟨hs0, hs1⟩ :=
    salary_risk_score_bounds (assess_salary_risk candidate_ask market_average)
  obtain ⟨hc0, hc1⟩ := tone_score_bounds (answers.getD [])
  have e1 : (build_risk_matrix required_skills candidate_skills job_history
      candidate_ask market_average answers).skill_gap =
        calculate_skill_gap required_skills candidate_skills := rfl
  have e2 : (build_risk_matrix required_skills candidate_skills job_history
      candidate_ask market_average answers).retention =
        assess_retention_risk job_history := rfl
  have e3 : (build_risk_matrix required_skills candidate_skills job_history
      candidate_ask market_average answers).salary =
        assess_salary_risk candidate_ask market_average := rfl
  have e4 : (build_risk_matrix required_skills candidate_skills job_history
      candidate_ask market_average answers).cultural =
        assess_cultural_risk (answers.getD []) := rfl
  have hw1 : ((risk_weights.skill : ℕ) : ℚ) = 35 := by norm_num [risk_weights]
  have hw2 : ((risk_weights.retention : ℕ) : ℚ) = 25 := by norm_num [risk_weights]
  have hw3 : ((risk_weights.salary : ℕ) : ℚ) = 25 := by norm_num [risk_weights]
  have hw4 : ((risk_weights.cultural : ℕ) : ℚ) = 15 := by norm_num [risk_weights]
  have hA0 : 0 ≤ skill_risk_score (calculate_skill_gap required_skills
        candidate_skills) * (risk_weights.skill : ℚ) / 100 +
      (assess_retention_risk job_history).risk_score *
        (risk_weights.retention : ℚ) / 100 +
      salary_risk_score (assess_salary_risk candidate_ask market_average) *
        (risk_weights.salary : ℚ) / 100 +
      cultural_risk_score (assess_cultural_risk (answers.getD [])) *
        (risk_weights.cultural : ℚ) / 100 := by
    rw [hw1, hw2, hw3, hw4]
    unfold skill_risk_score cultural_risk_score
    linarith
  have hA1 : skill_risk_score (calculate_skill_gap required_skills
        candidate_skills) * (risk_weights.skill : ℚ) / 100 +
      (assess_retention_risk job_history).risk_score *
        (risk_weights.retention : ℚ) / 100 +
      salary_risk_score (assess_salary_risk candidate_ask market_average) *
        (risk_weights.salary : ℚ) / 100 +
      cultural_risk_score (assess_cultural_risk (answers.getD [])) *
        (risk_weights.cultural : ℚ) / 100 ≤ 100 := by
    rw [hw1, hw2, hw3, hw4]
    unfold skill_risk_score cultural_risk_score
    linarith
  have hagg : (build_risk_matrix required_skills candidate_skills job_history
      candidate_ask market_average answers).aggregate_risk_score =
        round1 (skill_risk_score (calculate_skill_gap required_skills
            candidate_skills) * (risk_weights.skill : ℚ) / 100 +
          (assess_retention_risk job_history).risk_score *
            (risk_weights.retention : ℚ) / 100 +
          salary_risk_score (assess_salary_risk candidate_ask market_average) *
            (risk_weights.salary : ℚ) / 100 +
          cultural_risk_score (assess_cultural_risk (answers.getD [])) *
            (risk_weights.cultural : ℚ) / 100) := rfl
  refine ⟨rfl, ?_, ?_, ?_, ?_, ?_, ?_, ?_⟩
  · rw [e1]; unfold skill_risk_score; constructor <;> linarith
  · rw [e2]; exact ⟨hr0, hr1⟩
  · rw [e3]; exact ⟨hs0, hs1⟩
  · rw [e4]; unfold cultural_risk_score; constructor <;> linarith
  · rw [e1, e2, e3, e4]; exact hagg
  · rw [hagg]; exact (round1_bounds _ hA0 hA1).1
  · rw [hagg]; exact (round1_bounds _ hA0 hA1).2

/-- Claim C6 counterexample: on the empty job history the code returns
`is_job_hopper = false` although the returned average tenure (0) is
strictly below 18, so "isJobHopper iff average < 18" fails on the empty
list. -/
theorem assess_retention_risk_empty_cex :
    (assess_retention_risk []).is_job_hopper = false
    ∧ (assess_retention_risk []).avg_tenure_months < 18 := by
  constructor
  · rfl
  · decide

/-- Claim C6 (amended): for every non-empty job history, `is_job_hopper` is
true iff the average tenure (sum of `duration_months` over the number of
entries) is strictly below 18; for the empty history it is false. -/
theorem assess_retention_risk_is_job_hopper (job_history : List JobHistoryEntry)
    (h : job_history ≠ []) :
    (assess_retention_risk job_history).is_job_hopper
      = decide ((job_history.map (fun j => j.duration_months.getD 0)).sum
          / (job_history.length : ℚ) < 18)
    ∧ (assess_retention_risk []).is_job_hopper = false := by
  refine ⟨?_, rfl⟩
  unfold assess_retention_risk
  rw [if_neg h]
  have hmap : job_history.map (fun j => j.duration_months.getD 0) ≠ [] := by
    simpa using h
  simp only [if_neg hmap, List.length_map]

/-- Claim C6 witness: a single 6-month job yields `is_job_hopper = true`. -/
theorem assess_retention_risk_is_job_hopper_witness :
    ([(⟨some 6⟩ : JobHistoryEntry)] ≠ []) ∧
      (assess_retention_risk [⟨some 6⟩]).is_job_hopper = true :=
  ⟨by decide,
    ((assess_retention_risk_is_job_hopper [⟨some 6⟩] (by decide)).1).trans
      (by simp; norm_num)⟩

/-- Claim C7 counterexample: with required skills a, b, c and candidate
skill a, the stored `match_percentage` is 33.3 (rounded to 1 decimal),
not the exact ratio 1/3·100, so the claimed exact equation fails. -/
theorem calculate_skill_gap_exact_ratio_cex :
    (calculate_skill_gap ["a", "b", "c"] ["a"]).match_percentage = 333 / 10
    ∧ ((333 : ℚ) / 10) ≠ 1 / 3 * 100 := by
  constructor
  · unfold calculate_skill_gap
    dsimp only
    have h1 : (List.map normalizeSkill ["a", "b", "c"]).dedup = ["a", "b", "c"] := by
      decide
    have h2 : (List.map normalizeSkill ["a"]).dedup = ["a"] := by decide
    rw [h1, h2]
    have h3 : (["a", "b", "c"] : List String).filter
        (fun s => decide (s ∈ (["a"] : List String))) = ["a"] := by decide
    rw [h3, if_neg (by decide : ¬ (["a", "b", "c"] : List String) = [])]
    simp only [List.length_cons, List.length_nil]
    unfold round1 roundHalfEven
    norm_num
  · norm_num

/-- Claim C7 (amended): `calculate_skill_gap` normalizes both lists (trim,
lowercase), intersects them as sets, and stores `match_percentage` as the
ratio |matched|/|required|·100 rounded to 1 decimal (per the numeric
contract), defined as 100 whenever the required list is empty. -/
theorem calculate_skill_gap_match_pct (required_skills candidate_skills : List String) :
    (calculate_skill_gap required_skills candidate_skills).match_percentage
        = round1 (specMatchPct required_skills candidate_skills)
    ∧ (calculate_skill_gap [] candidate_skills).match_percentage = 100 := by
  have h100 : round1 (100 : ℚ) = 100 := by
    have := round1_intCast 100
    push_cast at this
    exact this
  constructor
  · unfold calculate_skill_gap specMatchPct
    dsimp only
    congr 1
    have hempty : (required_skills.map normalizeSkill).toFinset = ∅ ↔
        (required_skills.map normalizeSkill).dedup = [] := by
      rw [List.toFinset_eq_empty_iff, List.dedup_eq_nil]
    by_cases h : (required_skills.map normalizeSkill).dedup = []
    · rw [if_pos h, if_pos (hempty.mpr h)]
    · rw [if_neg h, if_neg (fun hc => h (hempty.mp hc))]
      have hnodup : ((required_skills.map normalizeSkill).dedup.filter
          (fun s => decide (s ∈ (candidate_skills.map normalizeSkill).dedup))).Nodup :=
        (required_skills.map normalizeSkill).nodup_dedup.filter _
      have hinter : ((required_skills.map normalizeSkill).toFinset ∩
            (candidate_skills.map normalizeSkill).toFinset) =
          ((required_skills.map normalizeSkill).dedup.filter
            (fun s => decide (s ∈ (candidate_skills.map normalizeSkill).dedup))).toFinset := by
        ext x
        simp [List.mem_filter, List.mem_dedup]
      rw [hinter, List.toFinset_card_of_nodup hnodup, List.card_toFinset]
  · unfold calculate_skill_gap
    dsimp only
    rw [show (List.map normalizeSkill ([] : List String)).dedup = [] from rfl,
      if_pos rfl]
    exact h100

/-- Claim C8: for every non-empty answer list the cultural tone score equals
clamp(50 + min(5·|positiveHits|, 40) − min(10·|riskHits|, 40), 0, 100), where
the hits are the members of the two fixed keyword lists found as
case-insensitive substrings of the concatenated answer text; in particular
the +40 cap keeps the score at 90, never above 100, for any input with 20
positive hits and no risk hits. -/
theorem assess_cultural_risk_tone_formula (answers : List String)
    (h : answers ≠ []) :
    (assess_cultural_risk answers).tone_score
      = max 0 (min 100
          ((50 : ℚ)
            + ((min (5 * (positiveHits answers).length) 40 : ℕ) : ℚ)
            - ((min (10 * (riskHits answers).length) 40 : ℕ) : ℚ))) := by
  unfold assess_cultural_risk positiveHits riskHits
  rw [if_neg h]
  dsimp only
  conv_rhs => rw [Nat.mul_comm 5, Nat.mul_comm 10]
  have hcast : ∀ a b : ℕ, (50 : ℚ) + (a : ℚ) - (b : ℚ)
      = (((50 + (a : ℤ) - (b : ℤ) : ℤ)) : ℚ) := by
    intro a b
    push_cast
    ring
  rw [hcast]
  have key : ∀ m : ℤ, round1 (max 0 (min 100 ((m : ℤ) : ℚ)))
      = max 0 (min 100 ((m : ℤ) : ℚ)) := by
    intro m
    have hmm : max (0 : ℚ) (min 100 (m : ℚ)) = ((max 0 (min 100 m) : ℤ) : ℚ) := by
      push_cast
      rfl
    rw [hmm, round1_intCast]
  exact key _

/-- Claim C8 witness: the single answer "team" has one positive hit and no
risk hits, so the tone score is 55. -/
theorem assess_cultural_risk_tone_formula_witness :
    ((["team"] : List String) ≠ []) ∧
      (assess_cultural_risk ["team"]).tone_score = 55 :=
  ⟨by decide,
    (assess_cultural_risk_tone_formula ["team"] (by decide)).trans (by
      have hp : positiveHits ["team"] = ["team"] := by decide
      have hr : riskHits ["team"] = [] := by decide
      rw [hp, hr]
      norm_num [Nat.min_def, min_def, max_def])⟩

/-- Claim C2: if either evaluation pass raises or fails to parse,
`evaluate_answers` returns exactly the fixed degraded result — total score
50, empty breakdown, the single manual-review weakness, all three dimension
scores 50, recommendation "screen", `validated = false` — and, being a total
function of the pass outcomes, never propagates the exception. -/
theorem evaluate_answers_degraded (session_id : String)
    (pass2 : Except Unit ValData) (eval_data : EvalData) :
    evaluate_answers session_id (Except.error ()) pass2 = degraded_result session_id
    ∧ evaluate_answers session_id (Except.ok eval_data) (Except.error ())
        = degraded_result session_id
    ∧ (degraded_result session_id).total_score = 50
    ∧ (degraded_result session_id).score_breakdown = []
    ∧ (degraded_result session_id).weaknesses
        = ["Evaluation error — manual review required"]
    ∧ (degraded_result session_id).cultural_fit_score = 50
    ∧ (degraded_result session_id).technical_score = 50
    ∧ (degraded_result session_id).behavioral_score = 50
    ∧ (degraded_result session_id).recommendation = "screen"
    ∧ (degraded_result session_id).validated = false :=
  ⟨rfl, rfl, rfl, rfl, rfl, rfl, rfl, rfl, rfl, rfl⟩

/-- Claim C4 counterexample: with three questions scored 1, 0, 0 the code
computes `int(1/60·100) = 1`, while rounding as the claim states gives
`round(5/3) = 2`: the normalized score truncates, it does not round. -/
theorem normalized_score_not_rounded_cex :
    normalized_score cexScores = 1
    ∧ roundHalfEven ((raw_total cexScores : ℚ)
        / ((cexScores.length * 20 : ℕ) : ℚ) * 100) = 2
    ∧ normalized_score cexScores
        ≠ roundHalfEven ((raw_total cexScores : ℚ)
            / ((cexScores.length * 20 : ℕ) : ℚ) * 100) := by
  have hraw : raw_total cexScores = 1 := by decide
  have hlen : cexScores.length = 3 := by decide
  have h1 : normalized_score cexScores = 1 := by
    unfold normalized_score max_possible
    rw [hraw, hlen]
    norm_num [pyInt, Nat.max_def]
  have h2 : roundHalfEven ((raw_total cexScores : ℚ)
      / ((cexScores.length * 20 : ℕ) : ℚ) * 100) = 2 := by
    rw [hraw, hlen]
    unfold roundHalfEven
    norm_num
  exact ⟨h1, h2, by rw [h1, h2]; decide⟩

/-- Claim C4 (amended): for a non-empty scores array the normalized score is
the truncation toward zero (Python `int()`) of Σscoreᵢ/(n·20)·100, and it is
0 for the empty array. -/
theorem normalized_score_truncates (scores_data : List ScoreEntry) :
    (scores_data ≠ [] → normalized_score scores_data
        = pyInt ((raw_total scores_data : ℚ)
            / ((scores_data.length * 20 : ℕ) : ℚ) * 100))
    ∧ normalized_score [] = 0 := by
  constructor
  · intro h
    unfold normalized_score max_possible
    have hpos : 0 < scores_data.length := List.length_pos.mpr h
    have hmax : max (scores_data.length * 20) 1 = scores_data.length * 20 := by
      omega
    rw [hmax]
  · unfold normalized_score max_possible raw_total
    norm_num [pyInt]

/-- Claim C4 witness: one question scored 20 normalizes to 100. -/
theorem normalized_score_truncates_witness :
    (([⟨none, none, none, some 20, none, none⟩] : List ScoreEntry) ≠ [])
    ∧ normalized_score [⟨none, none, none, some 20, none, none⟩]
        = pyInt ((raw_total [⟨none, none, none, some 20, none, none⟩] : ℚ)
            / ((([⟨none, none, none, some 20, none, none⟩] :
                List ScoreEntry).length * 20 : ℕ) : ℚ) * 100) :=
  ⟨by decide, (normalized_score_truncates _).1 (by decide)⟩

/-- Claim C5 counterexample: when the generation call itself raises
(`Except.error ()`, the call on line 51 sits outside the `try` block),
`compact_session` propagates the error to the caller instead of returning a
fallback snapshot. -/
theorem compact_session_gen_failure_cex :
    compact_session "session-1" "hello world" (Except.error ())
      = Except.error () := rfl

/-- Claim C5 (amended): whenever the generation call returns (any parse
outcome), `compact_session` returns a `MemorySnapshot`; a parse failure in
particular is absorbed into the fallback summary — the first 500 characters
(plus "..." when longer) — with an empty key-fact list.  Only a failure of
the generation call itself escapes. -/
theorem compact_session_parse_fallback (session_id conversation_text : String)
    (parse_outcome : Option ParsedCompaction) :
    (∃ snapshot, compact_session session_id conversation_text
        (Except.ok parse_outcome) = Except.ok snapshot)
    ∧ (compact_session session_id conversation_text (Except.ok none)).toOption.map
          MemorySnapshot.summary
        = some (if 500 < conversation_text.length
            then conversation_text.take 500 ++ "..." else conversation_text)
    ∧ (compact_session session_id conversation_text (Except.ok none)).toOption.map
          MemorySnapshot.key_facts = some [] :=
  ⟨⟨_, rfl⟩, rfl, rfl⟩

/-- Claim C9: `should_compact` at threshold 3000 is true exactly when the
word count times 1.3 reaches 3000; in particular every 2400-word text
(estimate 3120) compacts and every 2000-word text (estimate 2600) does
not. -/
theorem should_compact_threshold (conversation_text : String) :
    (should_compact conversation_text 3000 = true
        ↔ 3000 ≤ (wordCount conversation_text : ℚ) * (13 / 10))
    ∧ (wordCount conversation_text = 2400 →
        should_compact conversation_text 3000 = true)
    ∧ (wordCount conversation_text = 2000 →
        should_compact conversation_text 3000 = false) := by
  refine ⟨?_, ?_, ?_⟩
  · unfold should_compact
    simp
  · intro h
    unfold should_compact
    rw [h]
    simp only [decide_eq_true_eq]
    norm_num
  · intro h
    unfold should_compact
    rw [h]
    simp only [decide_eq_false_iff_not]
    norm_num

theorem countWordsAux_replicate (n : ℕ) (b : Bool) :
    countWordsAux ((List.replicate n [' ', 'w']).flatten) b = n := by
  induction n generalizing b with
  | zero => rfl
  | succ n ih =>
    rw [List.replicate_succ, List.flatten_cons]
    have h1 : (' ' : Char).isWhitespace = true := rfl
    have h2 : ('w' : Char).isWhitespace = false := rfl
    show countWordsAux (' ' :: 'w' :: (List.replicate n [' ', 'w']).flatten) b = n + 1
    rw [countWordsAux, h1, if_pos rfl, countWordsAux, h2]
    rw [if_neg (by simp), if_neg (by simp)]
    rw [ih]
    omega

theorem wordCount_wText (n : ℕ) : wordCount (wText n) = n :=
  countWordsAux_replicate n false

/-- Claim C9 witness: concrete 2400-word and 2000-word texts. -/
theorem should_compact_threshold_witness :
    (wordCount (wText 2400) = 2400 ∧ should_compact (wText 2400) 3000 = true)
    ∧ (wordCount (wText 2000) = 2000 ∧ should_compact (wText 2000) 3000 = false) :=
  ⟨⟨wordCount_wText 2400,
    (should_compact_threshold (wText 2400)).2.1 (wordCount_wText 2400)⟩,
   ⟨wordCount_wText 2000,
    (should_compact_threshold (wText 2000)).2.2 (wordCount_wText 2000)⟩⟩
